import Mathlib

/-
  Verification of the snake-game server (src/http_server.py) against its
  natural-language specification.

  Shallow embedding notes:
  - Grid coordinates are integers (Python ints); a snake body is a head-first
    list of cells.
  - Wall-clock time (time.time()) is passed explicitly as a rational "now".
  - Randomness (random.randint / random.random) is passed explicitly as a
    stream of draws; random.randint(0, k) is modelled as an arbitrary natural
    reduced mod (k+1), and random.random() as an arbitrary rational r compared
    against the same literal thresholds the source uses.
  - The unbounded placement loop of GameState.update_food_unsafe is embedded
    with an explicit fuel bound (number of loop iterations allowed); running
    out of fuel models the loop still spinning.  All other loops in the source
    are bounded (50 attempts per item) and are embedded exactly.
  - The simulation driver is the game_loop thread (http_server.py lines
    903-1048); one iteration of its while-loop body while game_running is
    embedded as game_loop_tick.  GameState.update_game (lines 374-472) is
    defined in the source but never called by any code path.
-/

set_option maxRecDepth 100000

/-- Board constants from http_server.py lines 20-23. -/
def BOARD_WIDTH : Int := 1000

/-- Board height constant. -/
def BOARD_HEIGHT : Int := 700

/-- Grid step constant. -/
def GRID_SIZE : Int := 20

/-- Baseline consumable target per participant. -/
def FOOD_COUNT_PER_PLAYER : Nat := 1

/-- Heading of a snake; the source stores one of the four strings. -/
inductive Direction where
  | up
  | down
  | left
  | right
deriving DecidableEq

/-- Variant tag of a consumable item. -/
inductive FoodType where
  | normal
  | white
  | purple
  | black
  | gray
  | gold
  | yellow
deriving DecidableEq

/-- A consumable item: the dicts kept in GameState.food. -/
structure Food where
  x : Int
  y : Int
  type : FoodType
deriving DecidableEq

/-- A hazard item: the dicts kept in GameState.deadly_gold_food.  The constant
type field (the string deadly_gold) is omitted. -/
structure DeadlyGoldFood where
  x : Int
  y : Int
  expires_at : ℚ
deriving DecidableEq

/-- The Snake class (http_server.py lines 26-116).  player_name is omitted
(it never influences behaviour); player_id is a natural number. -/
structure Snake where
  player_id : Nat
  body : List (Int × Int)
  direction : Direction
  alive : Bool
  score : Int
  total_score : Int
  speed_boost_end : ℚ
  speed_reduction_end : ℚ
deriving DecidableEq

/-- New head cell for a heading, as computed both in Snake.move and in the
move-command handler. -/
def nextHeadFor (dir : Direction) (head : Int × Int) : Int × Int :=
  match dir with
  | .up => (head.1, head.2 - GRID_SIZE)
  | .down => (head.1, head.2 + GRID_SIZE)
  | .left => (head.1 - GRID_SIZE, head.2)
  | .right => (head.1 + GRID_SIZE, head.2)

/-- Snake.move (lines 38-59): dead snakes do not move; advancing off the board
kills the snake without inserting the new head; otherwise the new head is
inserted in front.  The source indexes body[0]; bodies are never empty, and an
empty body is mapped to a no-op here. -/
def Snake.move (s : Snake) : Snake :=
  if s.alive = false then s
  else
    match s.body with
    | [] => s
    | head :: _ =>
      let new_head := nextHeadFor s.direction head
      if new_head.1 < 0 ∨ new_head.1 ≥ BOARD_WIDTH ∨ new_head.2 < 0 ∨ new_head.2 ≥ BOARD_HEIGHT then
        { s with alive := false }
      else
        { s with body := new_head :: s.body }

/-- Snake.grow_multiple (lines 64-70): appends the tail cell count times (all
appended copies equal the original tail cell). -/
def Snake.grow_multiple (s : Snake) (count : Nat) : Snake :=
  match s.body.getLast? with
  | none => s
  | some tail => { s with body := s.body ++ List.replicate count tail }

/-- Snake.shrink (lines 98-100): drop the tail segment, keeping at least one. -/
def Snake.shrink (s : Snake) : Snake :=
  if s.body.length > 1 then { s with body := s.body.dropLast } else s

/-- Snake.check_self_collision (lines 102-104): head equals some non-head
segment. -/
def Snake.check_self_collision (s : Snake) : Bool :=
  match s.body with
  | [] => false
  | head :: rest => decide (head ∈ rest)

/-- Snake.has_speed_boost (lines 90-92). -/
def Snake.has_speed_boost (now : ℚ) (s : Snake) : Bool :=
  decide (now < s.speed_boost_end)

/-- Snake.has_speed_reduction (lines 94-96). -/
def Snake.has_speed_reduction (now : ℚ) (s : Snake) : Bool :=
  decide (now < s.speed_reduction_end)

/-- The GameState aggregate (lines 119-130).  players keeps only the ids (the
websocket objects never influence game rules); snakes is the dict in insertion
order; votes maps ids to their flag.  The lock is the serialization point and
has no state content. -/
structure GameState where
  players : List Nat
  snakes : List Snake
  food : List Food
  deadly_gold_food : List DeadlyGoldFood
  game_started : Bool
  game_running : Bool
  votes : List (Nat × Bool)
deriving DecidableEq

/-- One random draw: xi and yi feed randint for the two coordinates (reduced
mod the randint range), r feeds random.random(). -/
structure Draw where
  xi : Nat
  yi : Nat
  r : ℚ

/-- x coordinate of a placement draw: randint(0, BOARD_WIDTH//GRID_SIZE - 1) * GRID_SIZE. -/
def drawX (d : Draw) : Int := GRID_SIZE * ((d.xi % 50 : Nat) : Int)

/-- y coordinate of a placement draw: randint(0, BOARD_HEIGHT//GRID_SIZE - 1) * GRID_SIZE. -/
def drawY (d : Draw) : Int := GRID_SIZE * ((d.yi % 35 : Nat) : Int)

/-- Whether some snake body covers the cell (lines 190-193 and 240-243). -/
def snakeOccupies (snakes : List Snake) (x y : Int) : Bool :=
  snakes.any fun s => decide ((x, y) ∈ s.body)

/-- Whether an existing consumable sits on the cell (lines 196-200, 246-250). -/
def foodOccupies (food : List Food) (x y : Int) : Bool :=
  food.any fun f => f.x == x && f.y == y

/-- Whether an existing hazard item sits on the cell (lines 252-257). -/
def deadlyOccupies (l : List DeadlyGoldFood) (x y : Int) : Bool :=
  l.any fun g => g.x == x && g.y == y

/-
The random() thresholds of the source are decimal literals (0.16, 0.25, ...).
They are defined here as rationals in normalized constructor form so that
kernel evaluation (the decide tactic) can compute with them; the r___eq
theorems below certify that each constant equals the decimal literal of the
source.
-/

/-- The source threshold 0.16 as a normalized rational (4/25). -/
def r016 : ℚ := ⟨4, 25, by norm_num, by norm_num⟩

/-- The source threshold 0.32 as a normalized rational (8/25). -/
def r032 : ℚ := ⟨8, 25, by norm_num, by norm_num⟩

/-- The source threshold 0.48 as a normalized rational (12/25). -/
def r048 : ℚ := ⟨12, 25, by norm_num, by norm_num⟩

/-- The source threshold 0.56 as a normalized rational (14/25). -/
def r056 : ℚ := ⟨14, 25, by norm_num, by norm_num⟩

/-- The source threshold 0.72 as a normalized rational (18/25). -/
def r072 : ℚ := ⟨18, 25, by norm_num, by norm_num⟩

/-- The source threshold 0.8 as a normalized rational (4/5). -/
def r080 : ℚ := ⟨4, 5, by norm_num, by norm_num⟩

/-- The source threshold 0.25 as a normalized rational (1/4). -/
def r025 : ℚ := ⟨1, 4, by norm_num, by norm_num⟩

/-- The source threshold 0.5 as a normalized rational (1/2). -/
def r050 : ℚ := ⟨1, 2, by norm_num, by norm_num⟩

/-- The source threshold 0.7 as a normalized rational (7/10). -/
def r070 : ℚ := ⟨7, 10, by norm_num, by norm_num⟩

/-- The source threshold 0.95 as a normalized rational (19/20). -/
def r095 : ℚ := ⟨19, 20, by norm_num, by norm_num⟩

/-- Baseline variant draw of update_food_unsafe (lines 203-218):
16% normal, 16% white, 16% purple, 8% black, 16% gray, 8% gold, 20% yellow. -/
def baselineFoodType (r : ℚ) : FoodType :=
  if r < r016 then .normal
  else if r < r032 then .white
  else if r < r048 then .purple
  else if r < r056 then .black
  else if r < r072 then .gray
  else if r < r080 then .gold
  else .yellow

/-- Bulk variant draw of create_multiple_food (lines 260-273), yellow excluded:
25% normal, 25% white, 20% purple, 10% black, 15% gray, 5% gold. -/
def bulkFoodType (r : ℚ) : FoodType :=
  if r < r025 then .normal
  else if r < r050 then .white
  else if r < r070 then .purple
  else if r < r080 then .black
  else if r < r095 then .gray
  else .gold

/-- Baseline replenishment target (line 185). -/
def target_food_count (gs : GameState) : Nat :=
  gs.players.length * FOOD_COUNT_PER_PLAYER

/-- One iteration of the while-loop body of update_food_unsafe (lines 186-224):
draw a cell; if it is free of snake bodies and existing consumables, append a
consumable of a freshly drawn variant, otherwise change nothing.  Note the
source does not test hazard items here. -/
def update_food_step (gs : GameState) (d : Draw) : GameState :=
  let x := drawX d
  let y := drawY d
  let valid_position := !snakeOccupies gs.snakes x y
  let position_occupied := foodOccupies gs.food x y
  if valid_position && !position_occupied then
    { gs with food := gs.food ++ [{ x := x, y := y, type := baselineFoodType d.r }] }
  else gs

/-- GameState.update_food_unsafe (lines 183-224): while the consumable count is
below target, keep drawing placements.  The source loop has no attempt bound;
fuel bounds the number of iterations this embedding is allowed to run, and the
stream supplies the random draws (shifted by one per iteration). -/
def update_food_unsafe : Nat → GameState × (Nat → Draw) → GameState × (Nat → Draw)
  | 0, p => p
  | fuel + 1, (gs, st) =>
    if gs.food.length < target_food_count gs then
      update_food_unsafe fuel (update_food_step gs (st 0), fun n => st (n + 1))
    else (gs, st)

/-- One attempt of create_multiple_food (lines 230-282): the cell must be free
of snake bodies, consumables and hazard items; on success the bulk-variant
consumable is appended. -/
def cmf_place (gs : GameState) (d : Draw) : Option GameState :=
  let x := drawX d
  let y := drawY d
  if !snakeOccupies gs.snakes x y && !foodOccupies gs.food x y
      && !deadlyOccupies gs.deadly_gold_food x y then
    some { gs with food := gs.food ++ [{ x := x, y := y, type := bulkFoodType d.r }] }
  else none

/-- The bounded retry loop for one bulk item (attempts < 50, lines 229-282):
stops at the first successful placement, gives up silently after the budget. -/
def cmf_attempts : Nat → GameState × (Nat → Draw) → GameState × (Nat → Draw)
  | 0, p => p
  | a + 1, (gs, st) =>
    match cmf_place gs (st 0) with
    | some gs2 => (gs2, fun n => st (n + 1))
    | none => cmf_attempts a (gs, fun n => st (n + 1))

/-- GameState.create_multiple_food (lines 226-282): count items, each with a
50-attempt budget. -/
def create_multiple_food : Nat → GameState × (Nat → Draw) → GameState × (Nat → Draw)
  | 0, p => p
  | c + 1, p => create_multiple_food c (cmf_attempts 50 p)

/-- GameState.clean_expired_deadly_gold_food (lines 329-335): keep hazard items
whose expiry is still in the future. -/
def clean_expired_deadly_gold_food (now : ℚ) (gs : GameState) : GameState :=
  { gs with deadly_gold_food := gs.deadly_gold_food.filter fun f => decide (now < f.expires_at) }

/-- Replace snake i in the state (in-place mutation of the dict value). -/
def setSnake (gs : GameState) (i : Nat) (s : Snake) : GameState :=
  { gs with snakes := gs.snakes.set i s }

/-- Add points to snake j (other_snake.score += 10 at lines 939 / 991). -/
def addScore (gs : GameState) (j : Nat) (pts : Int) : GameState :=
  match gs.snakes.get? j with
  | some o => setSnake gs j { o with score := o.score + pts }
  | none => gs

/-- Index of the first other living snake whose non-head body contains the
moved head (lines 935-940; iteration follows dict order, identity is
player_id). -/
def findCollider (snakes : List Snake) (sid : Nat) (head : Int × Int) : Option Nat :=
  (List.range snakes.length).find? fun j =>
    match snakes.get? j with
    | some o => decide (o.player_id ≠ sid) && o.alive && decide (head ∈ o.body.tail)
    | none => false

/-- First consumable sitting on the head cell (lines 946-950). -/
def findEatenFood (food : List Food) (head : Int × Int) : Option Food :=
  food.find? fun f => f.x == head.1 && f.y == head.2

/-- The eaten-food effect dispatch of game_loop (lines 954-973, identically
repeated at 1006-1025).  The state already has the eaten food removed and
snake i in its post-move form s.  The dispatch has branches for normal, white,
purple, black, gray and yellow variants; a gold consumable falls through every
branch, so it has no effect.  Afterwards update_food_unsafe replenishes the
baseline. -/
def apply_food_effect (now : ℚ) (fuel : Nat) (i : Nat) (s : Snake) (f : Food)
    (gs : GameState) (st : Nat → Draw) : GameState × (Nat → Draw) :=
  let p2 : GameState × (Nat → Draw) :=
    match f.type with
    | .normal => (setSnake gs i { s with score := s.score + 10 }, st)
    | .white =>
      let s2 := s.grow_multiple 10
      (setSnake gs i { s2 with score := s2.score + 50 }, st)
    | .purple => (setSnake gs i { s with speed_boost_end := now + 5, score := s.score + 30 }, st)
    | .black =>
      let s2 := s.grow_multiple 20
      (setSnake gs i { s2 with score := s2.score + 100 }, st)
    | .gray => (setSnake gs i { s with speed_reduction_end := now + 5, score := s.score - 10 }, st)
    | .yellow =>
      let q := create_multiple_food 50 (gs, st)
      (setSnake q.1 i { s with score := s.score + 150 }, q.2)
    | .gold => (gs, st)
  update_food_unsafe fuel p2

/-- One move-and-resolve sub-step of game_loop for snake i (lines 927-975,
identically repeated for the boost move at 979-1027): move, self-collision
check, body-collision check (which can also fire for a wall-dead snake, since
the source checks before testing alive), then consumable check: an eaten item
is removed via list.remove (first equal element) and its effect applied;
otherwise the tail shrinks.  There is no hazard-contact check on this path. -/
def move_and_resolve (now : ℚ) (fuel : Nat) (i : Nat)
    (p : GameState × (Nat → Draw)) : GameState × (Nat → Draw) :=
  match p.1.snakes.get? i with
  | none => p
  | some s0 =>
    let s1 := s0.move
    let gs1 := setSnake p.1 i s1
    let head := s1.body.headI
    if s1.check_self_collision then
      (setSnake gs1 i { s1 with alive := false }, p.2)
    else
      match findCollider gs1.snakes s1.player_id head with
      | some j =>
        (addScore (setSnake gs1 i { s1 with alive := false }) j 10, p.2)
      | none =>
        if s1.alive = false then (gs1, p.2)
        else
          match findEatenFood gs1.food head with
          | some f =>
            apply_food_effect now fuel i s1 f { gs1 with food := gs1.food.erase f } p.2
          | none => (setSnake gs1 i s1.shrink, p.2)

/-- The per-snake part of one game_loop iteration (lines 916-1027): skip dead
snakes; a snake with an active slow window acts only when tick_counter mod 5
is 0; a snake with an active fast window that is still alive acts a second
time when tick_counter mod 2 is 0. -/
def snake_tick (now : ℚ) (tick_counter : Nat) (fuel : Nat) (i : Nat)
    (p : GameState × (Nat → Draw)) : GameState × (Nat → Draw) :=
  match p.1.snakes.get? i with
  | none => p
  | some s =>
    if s.alive = false then p
    else
      let should_move := !(Snake.has_speed_reduction now s && decide (tick_counter % 5 ≠ 0))
      let p1 := if should_move then move_and_resolve now fuel i p else p
      match p1.1.snakes.get? i with
      | none => p1
      | some s1 =>
        if s1.alive && Snake.has_speed_boost now s1 && decide (tick_counter % 2 = 0) then
          move_and_resolve now fuel i p1
        else p1

/-- One iteration of the game_loop body while game_running (lines 906-1048):
clean expired hazards, run every snake in dict order, then the round-end
check: when at most one snake is alive and more than one exists, fold every
round score into the cumulative score (without resetting the round score) and
stop the round.  Broadcasting does not change the model. -/
def game_loop_tick (now : ℚ) (tick_counter : Nat) (fuel : Nat)
    (p : GameState × (Nat → Draw)) : GameState × (Nat → Draw) :=
  if p.1.game_running = false then p
  else
    let p0 := (clean_expired_deadly_gold_food now p.1, p.2)
    let p1 := (List.range p0.1.snakes.length).foldl
      (fun q i => snake_tick now tick_counter fuel i q) p0
    let gs := p1.1
    let alive_count := (gs.snakes.filter fun s => s.alive).length
    if alive_count ≤ 1 ∧ gs.snakes.length > 1 then
      ({ gs with
          snakes := gs.snakes.map fun s => { s with total_score := s.total_score + s.score }
          game_running := false }, p1.2)
    else p1

/-- Fresh spawn position used by restart_game (lines 363-366):
randint(5, BOARD_WIDTH//GRID_SIZE - 5) * GRID_SIZE gives x in 5..45 steps,
randint(5, BOARD_HEIGHT//GRID_SIZE - 5) * GRID_SIZE gives y in 5..30 steps. -/
def restartPos (q : Nat × Nat) : Int × Int :=
  (GRID_SIZE * ((5 + q.1 % 41 : Nat) : Int), GRID_SIZE * ((5 + q.2 % 26 : Nat) : Int))

/-- The per-snake reset of restart_game (lines 359-370): fold the round score
into the cumulative score, then a fresh one-cell body at a drawn position,
heading right, alive, round score zero. -/
def reset_snake (q : Nat × Nat) (s : Snake) : Snake :=
  { s with
    total_score := s.total_score + s.score
    body := [restartPos q]
    direction := .right
    alive := true
    score := 0 }

/-- Reset every snake in dict order, drawing one position per snake. -/
def resetSnakes (posSt : Nat → Nat × Nat) : List Snake → Nat → List Snake
  | [], _ => []
  | s :: rest, i => reset_snake (posSt i) s :: resetSnakes posSt rest (i + 1)

/-- GameState.restart_game (lines 352-372): back to the lobby phase, votes all
false, every snake reset, the consumable list cleared, then the baseline
replenished.  The hazard item list is not touched. -/
def restart_game (fuel : Nat) (posSt : Nat → Nat × Nat)
    (p : GameState × (Nat → Draw)) : GameState × (Nat → Draw) :=
  let gs := p.1
  let gs1 : GameState :=
    { gs with
      game_started := false
      game_running := false
      votes := gs.votes.map fun v => (v.1, false)
      snakes := resetSnakes posSt gs.snakes 0
      food := [] }
  update_food_unsafe fuel (gs1, p.2)

/-- Reverse heading map of the move handler (lines 663-666). -/
def opposite : Direction → Direction
  | .up => .down
  | .down => .up
  | .left => .right
  | .right => .left

/-- The move-command handler (lines 659-685): only when the snake is alive,
the round is running and the body is non-empty; the requested heading is
applied unless it is the exact reverse of the current heading or (when a
second body segment exists) its next head cell equals that second segment. -/
def handle_move (running : Bool) (s : Snake) (dir : Direction) : Snake :=
  if s.alive = true ∧ running = true ∧ s.body.length > 0 then
    let can_change_direction : Bool :=
      match s.body with
      | head :: second :: _ => !(nextHeadFor dir head == second)
      | _ => true
    if dir ≠ opposite s.direction ∧ can_change_direction = true then
      { s with direction := dir }
    else s
  else s

/-- Exact-length read from the byte stream: None models a short read. -/
def takeExact (n : Nat) (l : List Nat) : Option (List Nat × List Nat) :=
  if l.length < n then none else some (l.take n, l.drop n)

/-- Cyclic XOR unmasking (lines 735-737), starting at index i. -/
def unmaskFrom (mask : List Nat) : Nat → List Nat → List Nat
  | _, [] => []
  | i, b :: rest => (b ^^^ mask.getD (i % 4) 0) :: unmaskFrom mask (i + 1) rest

/-- WebSocketHTTPRequestHandler.read_websocket_frame (lines 699-755) over a
byte list.  The source computes fin = (data[0] & 0x80) >> 7 but never reads it
again.  Close frames (opcode 8) and every non-text opcode yield no message;
a text frame yields its unmasked payload bytes (the UTF-8 decode, which can
also yield no message on invalid bytes, is outside this byte-level model). -/
def read_websocket_frame (input : List Nat) : Option (List Nat) :=
  match input with
  | b0 :: b1 :: rest =>
    let opcode := b0 % 16
    let masked := b1 / 128 % 2
    let payload_len0 := b1 % 128
    let lenAndRest : Option (Nat × List Nat) :=
      if payload_len0 = 126 then
        match takeExact 2 rest with
        | some (ext, r2) => some (256 * ext.getD 0 0 + ext.getD 1 0, r2)
        | none => none
      else if payload_len0 = 127 then
        match takeExact 8 rest with
        | some (ext, r2) => some (ext.foldl (fun acc b => 256 * acc + b) 0, r2)
        | none => none
      else some (payload_len0, rest)
    match lenAndRest with
    | none => none
    | some (payload_len, r2) =>
      let maskAndRest : Option (List Nat × List Nat) :=
        if masked = 1 then takeExact 4 r2 else some ([], r2)
      match maskAndRest with
      | none => none
      | some (mask, r3) =>
        match takeExact payload_len r3 with
        | none => none
        | some (payload, _) =>
          let payload2 := if masked = 1 then unmaskFrom mask 0 payload else payload
          if opcode = 8 then none
          else if opcode ≠ 1 then none
          else some payload2
  | _ => none

/-- Convenience constructor for a freshly joined snake (Snake.__init__). -/
def mkSnake (id : Nat) (body : List (Int × Int)) (dir : Direction) : Snake :=
  { player_id := id
    body := body
    direction := dir
    alive := true
    score := 0
    total_score := 0
    speed_boost_end := 0
    speed_reduction_end := 0 }

/-- A constant draw stream proposing cell (0, 0) with rand 0. -/
def constStream : Nat → Draw := fun _ => { xi := 0, yi := 0, r := 0 }

/-- A draw stream proposing the pairwise distinct cells (20n+20 mod 1000, 0)
with rand one half. -/
def streamY : Nat → Draw := fun n => { xi := n + 1, yi := 0, r := r050 }

/-- Round running, one snake one step left of a gold consumable. -/
def gsGold : GameState :=
  { players := [1]
    snakes := [mkSnake 1 [(100, 100)] .right]
    food := [{ x := 120, y := 100, type := .gold }]
    deadly_gold_food := []
    game_started := true
    game_running := true
    votes := [(1, false)] }

/-- Round running, one snake one step left of a hazard item that expires far
in the future (now is 100, expiry 1000). -/
def gsHazard : GameState :=
  { players := [1]
    snakes := [mkSnake 1 [(100, 100)] .right]
    food := []
    deadly_gold_food := [{ x := 120, y := 100, expires_at := 1000 }]
    game_started := true
    game_running := true
    votes := [(1, false)] }

/-- Round running, a two-segment snake heading right and a one-segment snake
heading left whose heads land on the same cell (120, 100) this tick. -/
def gsHeads : GameState :=
  { players := [1, 2]
    snakes := [mkSnake 1 [(100, 100), (80, 100)] .right, mkSnake 2 [(140, 100)] .left]
    food := []
    deadly_gold_food := []
    game_started := true
    game_running := true
    votes := [(1, false), (2, false)] }

/-- Round running, a two-segment snake one step left of a black consumable. -/
def gsBlack : GameState :=
  { players := [1]
    snakes := [mkSnake 1 [(100, 100), (80, 100)] .right]
    food := [{ x := 120, y := 100, type := .black }]
    deadly_gold_food := []
    game_started := true
    game_running := true
    votes := [(1, false)] }

/-- Round running, one snake one step left of a yellow consumable. -/
def gsYellow : GameState :=
  { players := [1]
    snakes := [mkSnake 1 [(100, 100)] .right]
    food := [{ x := 120, y := 100, type := .yellow }]
    deadly_gold_food := []
    game_started := true
    game_running := true
    votes := [(1, false)] }

/-- Round running with one dead snake (round score 11, cumulative 3) and one
living snake (round score 50, cumulative 7): the round-end check fires this
tick. -/
def gsEnd : GameState :=
  { players := [1, 2]
    snakes := [{ mkSnake 1 [(100, 100)] .right with alive := false, score := 11, total_score := 3 },
               { mkSnake 2 [(300, 300)] .right with score := 50, total_score := 7 }]
    food := []
    deadly_gold_food := []
    game_started := true
    game_running := true
    votes := [(1, false), (2, false)] }

/-- A state holding one consumable and one unexpired hazard item, about to be
restarted. -/
def gsRestart : GameState :=
  { players := [1]
    snakes := [{ mkSnake 1 [(200, 200)] .right with score := 50, total_score := 7 }]
    food := [{ x := 400, y := 400, type := .normal }]
    deadly_gold_food := [{ x := 300, y := 300, expires_at := 1000 }]
    game_started := true
    game_running := true
    votes := [(1, true)] }

/-- A dead snake (for the move-handler guard). -/
def sDead : Snake := { mkSnake 1 [(100, 100)] .right with alive := false }

/-- A straight two-segment snake heading right. -/
def sTwo : Snake := mkSnake 2 [(100, 100), (80, 100)] .right

/-- An L-shaped two-segment snake heading right whose second segment is the
cell directly below the head. -/
def sTwoL : Snake := mkSnake 3 [(100, 100), (100, 120)] .right

/-- The consumable filling grid cell number n (cells are numbered row-major:
x index n mod 50, y index n div 50). -/
def mkCellFood (n : Nat) : Food :=
  { x := ((20 * (n % 50) : Nat) : Int), y := ((20 * (n / 50) : Nat) : Int), type := .normal }

/-- Consumables covering every one of the 1750 grid cells except cell 0, the
cell (0, 0). -/
def bigFood : List Food :=
  (List.range 1750).filterMap fun n => if n = 0 then none else some (mkCellFood n)

/-- Consumables covering every one of the 1750 grid cells. -/
def fullFood : List Food :=
  (List.range 1750).map mkCellFood

/-- 1751 participants but only 1749 consumables: the replenishment target is
two above the current count while only the single cell (0, 0) is free. -/
def s10 : GameState :=
  { players := List.range 1751
    snakes := []
    food := bigFood
    deadly_gold_food := []
    game_started := false
    game_running := false
    votes := [] }

/-- 1751 participants and a completely full board: the target is one above
the current count and no cell is free. -/
def s10full : GameState :=
  { players := List.range 1751
    snakes := []
    food := fullFood
    deadly_gold_food := []
    game_started := false
    game_running := false
    votes := [] }

/-- The replenishment loop terminates from a state when some number of loop
iterations, fed by some draw stream, brings the consumable count up to the
target (so the while guard finally fails). -/
def UFUTerminates (gs : GameState) : Prop :=
  ∃ (fuel : Nat) (st : Nat → Draw),
    target_food_count gs ≤ ( update_food_unsafe fuel (gs, st)).1.food.length

/-- update_food_step never changes anything except the consumable list. -/
theorem ufs_preserves (gs : GameState) (d : Draw) :
    (update_food_step gs d).players = gs.players
    ∧ (update_food_step gs d).snakes = gs.snakes
    ∧ (update_food_step gs d).deadly_gold_food = gs.deadly_gold_food
    ∧ (update_food_step gs d).game_started = gs.game_started
    ∧ (update_food_step gs d).game_running = gs.game_running
    ∧ (update_food_step gs d).votes = gs.votes := by
  unfold update_food_step
  dsimp only
  split <;> exact ⟨rfl, rfl, rfl, rfl, rfl, rfl⟩

/-- The baseline replenishment loop never changes anything except the
consumable list: whatever fuel it is given, it only appends consumables. -/
theorem ufu_preserves : ∀ (fuel : Nat) (gs : GameState) (st : Nat → Draw),
    ( update_food_unsafe fuel (gs, st)).1.players = gs.players
    ∧ ( update_food_unsafe fuel (gs, st)).1.snakes = gs.snakes
    ∧ ( update_food_unsafe fuel (gs, st)).1.deadly_gold_food = gs.deadly_gold_food
    ∧ ( update_food_unsafe fuel (gs, st)).1.game_started = gs.game_started
    ∧ ( update_food_unsafe fuel (gs, st)).1.game_running = gs.game_running
    ∧ ( update_food_unsafe fuel (gs, st)).1.votes = gs.votes := by
  intro fuel
  induction fuel with
  | zero => intro gs st; exact ⟨rfl, rfl, rfl, rfl, rfl, rfl⟩
  | succ n ih =>
    intro gs st
    simp only [ update_food_unsafe]
    split
    · have h := ih (update_food_step gs (st 0)) (fun n => st (n + 1))
      have h2 := ufs_preserves gs (st 0)
      exact ⟨h.1.trans h2.1, h.2.1.trans h2.2.1, h.2.2.1.trans h2.2.2.1,
        h.2.2.2.1.trans h2.2.2.2.1, h.2.2.2.2.1.trans h2.2.2.2.2.1,
        h.2.2.2.2.2.trans h2.2.2.2.2.2⟩
    · exact ⟨rfl, rfl, rfl, rfl, rfl, rfl⟩

/-- Projections of the per-snake reset pass: every reset snake is alive with a
one-cell body and zero round score, and its cumulative score is the old
cumulative plus the old round score. -/
theorem resetSnakes_facts : ∀ (posSt : Nat → Nat × Nat) (l : List Snake) (i : Nat),
    ((resetSnakes posSt l i).map Snake.alive = l.map fun _ => true)
    ∧ ((resetSnakes posSt l i).map Snake.score = l.map fun _ => (0 : Int))
    ∧ ((resetSnakes posSt l i).map Snake.total_score = l.map fun s => s.total_score + s.score)
    ∧ ((resetSnakes posSt l i).map (fun s => s.body.length) = l.map fun _ => 1) := by
  intro posSt l
  induction l with
  | nil => intro i; exact ⟨rfl, rfl, rfl, rfl⟩
  | cons s rest ih =>
    intro i
    have h := ih (i + 1)
    simp only [resetSnakes, List.map_cons, reset_snake, List.length_singleton]
    exact ⟨by rw [h.1], by rw [h.2.1], by rw [h.2.2.1], by rw [h.2.2.2]⟩

/-- Claim C1 (code bug in the driver): the spec says a gold consumable eaten in
a driver tick spawns 20 x alive-count hazard items and adds 200 points.  The
eaten-food dispatch of game_loop has no gold branch, so when the snake in
gsGold eats the gold consumable its score stays 0, no hazard item appears, and
the gold item is simply removed (the baseline replenishment then places one
fresh consumable at the drawn cell (0, 0)).  The second conjunct shows the
replenishment loop can never create hazard items or touch snakes, whatever
fuel and draws it gets, so the missing effect is not hidden in the fuel
parameter. -/
theorem c1_driver_gold_no_effect :
    ((game_loop_tick 100 1 50 (gsGold, constStream)).1.snakes.map Snake.score = [0]
      ∧ (game_loop_tick 100 1 50 (gsGold, constStream)).1.deadly_gold_food = []
      ∧ (game_loop_tick 100 1 50 (gsGold, constStream)).1.food
          = [{ x := 0, y := 0, type := FoodType.normal }]
      ∧ (game_loop_tick 100 1 50 (gsGold, constStream)).1.snakes.map Snake.alive = [true])
    ∧ ∀ (fuel : Nat) (gs : GameState) (st : Nat → Draw),
        ( update_food_unsafe fuel (gs, st)).1.snakes = gs.snakes
        ∧ ( update_food_unsafe fuel (gs, st)).1.deadly_gold_food = gs.deadly_gold_food :=
  ⟨by decide, fun fuel gs st =>
    ⟨(ufu_preserves fuel gs st).2.1, (ufu_preserves fuel gs st).2.2.1⟩⟩

/-- Claim C2 (code bug in the driver): the spec says head-on-hazard contact in
a driver tick kills the snake instantly and consumes the hazard.  game_loop
has no hazard-contact check at all (it exists only in the never-called
GameState.update_game), so after the tick the snake in gsHazard sits on the
hazard cell (120, 100), is still alive with score 0, and the hazard item is
still in the model. -/
theorem c2_driver_hazard_not_lethal :
    (game_loop_tick 100 1 50 (gsHazard, constStream)).1.snakes.map Snake.alive = [true]
    ∧ (game_loop_tick 100 1 50 (gsHazard, constStream)).1.deadly_gold_food
        = [{ x := 120, y := 100, expires_at := 1000 }]
    ∧ (game_loop_tick 100 1 50 (gsHazard, constStream)).1.snakes.map Snake.score = [0]
    ∧ (game_loop_tick 100 1 50 (gsHazard, constStream)).1.snakes.map (fun s => s.body.headI)
        = [(120, 100)] := by decide

/-- Claim C3 (code bug in the driver): the spec says that when two living
heads land on the same cell in a driver tick, the strictly shorter snake dies
and the longer gains 20 points (equal lengths kill both).  game_loop resolves
body contact only against non-head segments, so in gsHeads both heads end the
tick on (120, 100) with lengths 2 and 1, both snakes stay alive, and both
scores stay 0; the length tie-break exists only in the never-called
GameState.update_game. -/
theorem c3_driver_head_to_head_unresolved :
    (game_loop_tick 100 1 50 (gsHeads, constStream)).1.snakes.map Snake.alive = [true, true]
    ∧ (game_loop_tick 100 1 50 (gsHeads, constStream)).1.snakes.map Snake.score = [0, 0]
    ∧ (game_loop_tick 100 1 50 (gsHeads, constStream)).1.snakes.map (fun s => s.body.headI)
        = [(120, 100), (120, 100)]
    ∧ (game_loop_tick 100 1 50 (gsHeads, constStream)).1.snakes.map (fun s => s.body.length)
        = [2, 1] := by decide

/-- Certification: r016 is the source literal 0.16. -/
theorem r016_eq : r016 = 0.16 := by
  rw [r016, Rat.mk'_eq_divInt, Rat.divInt_eq_div]; norm_num

/-- Certification: r032 is the source literal 0.32. -/
theorem r032_eq : r032 = 0.32 := by
  rw [r032, Rat.mk'_eq_divInt, Rat.divInt_eq_div]; norm_num

/-- Certification: r048 is the source literal 0.48. -/
theorem r048_eq : r048 = 0.48 := by
  rw [r048, Rat.mk'_eq_divInt, Rat.divInt_eq_div]; norm_num

/-- Certification: r056 is the source literal 0.56. -/
theorem r056_eq : r056 = 0.56 := by
  rw [r056, Rat.mk'_eq_divInt, Rat.divInt_eq_div]; norm_num

/-- Certification: r072 is the source literal 0.72. -/
theorem r072_eq : r072 = 0.72 := by
  rw [r072, Rat.mk'_eq_divInt, Rat.divInt_eq_div]; norm_num

/-- Certification: r080 is the source literal 0.8. -/
theorem r080_eq : r080 = 0.8 := by
  rw [r080, Rat.mk'_eq_divInt, Rat.divInt_eq_div]; norm_num

/-- Certification: r025 is the source literal 0.25. -/
theorem r025_eq : r025 = 0.25 := by
  rw [r025, Rat.mk'_eq_divInt, Rat.divInt_eq_div]; norm_num

/-- Certification: r050 is the source literal 0.5. -/
theorem r050_eq : r050 = 0.5 := by
  rw [r050, Rat.mk'_eq_divInt, Rat.divInt_eq_div]; norm_num

/-- Certification: r070 is the source literal 0.7. -/
theorem r070_eq : r070 = 0.7 := by
  rw [r070, Rat.mk'_eq_divInt, Rat.divInt_eq_div]; norm_num

/-- Certification: r095 is the source literal 0.95. -/
theorem r095_eq : r095 = 0.95 := by
  rw [r095, Rat.mk'_eq_divInt, Rat.divInt_eq_div]; norm_num

/-- The preimage intervals of the bulk variant draw: the actual weights of
create_multiple_food are the interval widths 0.25, 0.25, 0.2, 0.1, 0.15 and
0.05 (for random() uniform on the unit interval). -/
theorem bulkFoodType_intervals (r : ℚ) :
    (bulkFoodType r = .normal ↔ r < 0.25)
    ∧ (bulkFoodType r = .white ↔ 0.25 ≤ r ∧ r < 0.5)
    ∧ (bulkFoodType r = .purple ↔ 0.5 ≤ r ∧ r < 0.7)
    ∧ (bulkFoodType r = .black ↔ 0.7 ≤ r ∧ r < 0.8)
    ∧ (bulkFoodType r = .gray ↔ 0.8 ≤ r ∧ r < 0.95)
    ∧ (bulkFoodType r = .gold ↔ 0.95 ≤ r) := by
  unfold bulkFoodType
  rw [r025_eq, r050_eq, r070_eq, r080_eq, r095_eq]
  split_ifs with a b c d e <;>
    refine ⟨?_, ?_, ?_, ?_, ?_, ?_⟩ <;> simp <;>
      first
        | linarith
        | (constructor <;> linarith)
        | (rintro h1 h2; linarith)
        | (intro h1; linarith)

/-- Claim C4 counterexample: restart_game does not clear the hazard item
collection.  In gsRestart one unexpired hazard item exists; after the restart
it is still in the model, so not every item collection is cleared. -/
theorem c4_hazards_not_cleared :
    (restart_game 50 (fun _ => (0, 0)) (gsRestart, constStream)).1.deadly_gold_food
      = [{ x := 300, y := 300, expires_at := 1000 }]
    ∧ [({ x := 300, y := 300, expires_at := 1000 } : DeadlyGoldFood)] ≠ [] := by decide

/-- Claim C4 (amended): after restart_game the phase is lobby (both flags
false); every snake is reset in place (fresh one-cell body at its drawn
position, heading right, alive, round score 0, cumulative score increased by
the pre-restart round score); the consumable list is cleared before the
baseline is regenerated (the pre-restart consumables have no influence on the
result); but the hazard item collection is left untouched. -/
theorem c4_restart_effects : ∀ (gs : GameState) (fuel : Nat) (posSt : Nat → Nat × Nat)
    (st : Nat → Draw),
    (restart_game fuel posSt (gs, st)).1.game_started = false
    ∧ (restart_game fuel posSt (gs, st)).1.game_running = false
    ∧ (restart_game fuel posSt (gs, st)).1.snakes = resetSnakes posSt gs.snakes 0
    ∧ ((restart_game fuel posSt (gs, st)).1.snakes.map Snake.alive
        = gs.snakes.map fun _ => true)
    ∧ ((restart_game fuel posSt (gs, st)).1.snakes.map Snake.score
        = gs.snakes.map fun _ => (0 : Int))
    ∧ ((restart_game fuel posSt (gs, st)).1.snakes.map Snake.total_score
        = gs.snakes.map fun s => s.total_score + s.score)
    ∧ ((restart_game fuel posSt (gs, st)).1.snakes.map (fun s => s.body.length)
        = gs.snakes.map fun _ => 1)
    ∧ (restart_game fuel posSt (gs, st)).1.deadly_gold_food = gs.deadly_gold_food
    ∧ ∀ f : List Food,
        (restart_game fuel posSt ({ gs with food := f }, st)).1.food
          = (restart_game fuel posSt (gs, st)).1.food := by
  intro gs fuel posSt st
  unfold restart_game
  dsimp only
  have H := ufu_preserves fuel
    { gs with
      game_started := false
      game_running := false
      votes := gs.votes.map fun v => (v.1, false)
      snakes := resetSnakes posSt gs.snakes 0
      food := [] } st
  refine ⟨H.2.2.2.1, H.2.2.2.2.1, H.2.1, ?_, ?_, ?_, ?_, H.2.2.1, fun f => rfl⟩
  · rw [H.2.1]; exact (resetSnakes_facts posSt gs.snakes 0).1
  · rw [H.2.1]; exact (resetSnakes_facts posSt gs.snakes 0).2.1
  · rw [H.2.1]; exact (resetSnakes_facts posSt gs.snakes 0).2.2.1
  · rw [H.2.1]; exact (resetSnakes_facts posSt gs.snakes 0).2.2.2

/-- Claim C5 counterexample: the black-consumable growth is not gradual.  In
the eating tick itself the body already holds all 20 appended tail copies:
its length jumps from 2 to 23 (1 from the kept head insertion, 20 from
grow_multiple, 1 from the skipped tail removal), while growth by skipping
tail removal on 20 subsequent ticks would leave length 3 right after the
eating tick. -/
theorem c5_growth_not_gradual :
    (game_loop_tick 100 1 50 (gsBlack, constStream)).1.snakes.map (fun s => s.body.length) = [23]
    ∧ (game_loop_tick 100 1 50 (gsBlack, constStream)).1.snakes.map Snake.body
        = [[((120 : Int), (100 : Int)), (100, 100), (80, 100)]
            ++ List.replicate 20 ((80 : Int), (100 : Int))]
    ∧ (23 : Nat) ≠ 3 := by decide

/-- Claim C5 (amended): eating a black consumable adds 100 points immediately
and grows the body by exactly 20 segments immediately (grow_multiple appends
20 copies of the tail cell in the eating tick itself, on top of the net +1
from moving without tail removal), not gradually over 20 later ticks. -/
theorem c5_black_immediate_growth :
    ((game_loop_tick 100 1 50 (gsBlack, constStream)).1.snakes.map Snake.score = [100]
      ∧ (game_loop_tick 100 1 50 (gsBlack, constStream)).1.snakes.map (fun s => s.body.length)
          = [23])
    ∧ ∀ (s : Snake) (n : Nat),
        s.body = [] ∨ (s.grow_multiple n).body.length = s.body.length + n := by
  refine ⟨by decide, ?_⟩
  intro s n
  match h : s.body.getLast? with
  | none => exact Or.inl (by simpa using List.getLast?_eq_none_iff.mp h)
  | some t =>
    refine Or.inr ?_
    unfold Snake.grow_multiple
    rw [h]
    simp

/-- Claim C6 counterexample: the bulk-spawn variant weights are not the
proportional reweighting of the baseline table.  The set of random() values
that create_multiple_food maps to gray is exactly the interval from 0.8
(inclusive) to 0.95 (exclusive), of width 0.15, not the claimed 20%; the set
mapped to gold is the ray from 0.95, of width 0.05 inside the unit interval,
not the claimed 10%. -/
theorem c6_gray_weight_mismatch :
    Set.preimage bulkFoodType {FoodType.gray} = Set.Ico (0.8 : ℚ) 0.95
    ∧ Set.preimage bulkFoodType {FoodType.gold} = Set.Ici (0.95 : ℚ)
    ∧ (0.95 : ℚ) - 0.8 = 0.15
    ∧ ¬((0.15 : ℚ) = 0.2)
    ∧ (1 : ℚ) - 0.95 = 0.05
    ∧ ¬((0.05 : ℚ) = 0.1) := by
  refine ⟨?_, ?_, by norm_num, by norm_num, by norm_num, by norm_num⟩
  · ext r
    simp only [Set.mem_preimage, Set.mem_singleton_iff, Set.mem_Ico]
    exact (bulkFoodType_intervals r).2.2.2.2.1
  · ext r
    simp only [Set.mem_preimage, Set.mem_singleton_iff, Set.mem_Ici]
    exact (bulkFoodType_intervals r).2.2.2.2.2

/-- Claim C6 (amended): when the snake in gsYellow eats the yellow consumable
in a driver tick, its score rises by exactly 150 and 50 bulk consumables are
spawned (here the draw stream offers 50 distinct free cells, so every one of
the 50 item attempts succeeds), none of them yellow; the bulk variant is
drawn with the weights of create_multiple_food, whose preimage intervals are
normal 25%, white 25%, purple 20%, black 10%, gray 15%, gold 5% (not the
proportional reweighting of the baseline table). -/
theorem c6_yellow_bulk_spawn :
    ((game_loop_tick 100 1 50 (gsYellow, streamY)).1.snakes.map Snake.score = [150]
      ∧ (game_loop_tick 100 1 50 (gsYellow, streamY)).1.food.length = 50
      ∧ ((game_loop_tick 100 1 50 (gsYellow, streamY)).1.food.all
          fun f => !(f.type == FoodType.yellow)) = true)
    ∧ ∀ r : ℚ,
        (bulkFoodType r = .normal ↔ r < 0.25)
        ∧ (bulkFoodType r = .white ↔ 0.25 ≤ r ∧ r < 0.5)
        ∧ (bulkFoodType r = .purple ↔ 0.5 ≤ r ∧ r < 0.7)
        ∧ (bulkFoodType r = .black ↔ 0.7 ≤ r ∧ r < 0.8)
        ∧ (bulkFoodType r = .gray ↔ 0.8 ≤ r ∧ r < 0.95)
        ∧ (bulkFoodType r = .gold ↔ 0.95 ≤ r) :=
  ⟨by decide, bulkFoodType_intervals⟩

/-- Claim C7 counterexample: a fragmented frame is not rejected.  The bytes
1, 1, 65 form a frame whose final bit is clear (fin 0) with text opcode,
unmasked, one payload byte; the decoder returns the payload as a complete
message instead of no message. -/
theorem c7_fragment_delivered :
    read_websocket_frame [1, 1, 65] = some [65]
    ∧ some [65] ≠ (none : Option (List Nat)) := by decide

/-- Claim C7 (amended): the decoder ignores the final/continuation flag
entirely: setting the top bit of the first byte (the fin bit) never changes
the result, so a non-final text frame is processed exactly like a final one
and its payload is delivered as a complete message; continuation frames
(opcode 0) yield no message because only opcode 1 is processed, so fragments
after the first are silently dropped rather than reassembled. -/
theorem c7_fin_bit_ignored :
    (∀ (b0 : Nat) (rest : List Nat),
        read_websocket_frame ((b0 + 128) :: rest) = read_websocket_frame (b0 :: rest))
    ∧ ∀ rest : List Nat, read_websocket_frame (0 :: rest) = none := by
  constructor
  · intro b0 rest
    cases rest with
    | nil => rfl
    | cons b1 r =>
      have h : (b0 + 128) % 16 = b0 % 16 := by omega
      simp only [read_websocket_frame, h]
  · intro rest
    cases rest with
    | nil => rfl
    | cons b1 r =>
      simp only [read_websocket_frame, Nat.zero_mod]
      repeat' split <;> try simp

/-- Claim C8 (confirmed): the move command changes nothing unless the snake is
alive and the round is running; a requested heading equal to the exact
reverse of the current heading never changes the snake; and a requested
heading whose next head cell equals the current second body segment never
changes the snake. -/
theorem c8_move_validation :
    (∀ (running : Bool) (s : Snake) (dir : Direction),
        ¬(s.alive = true ∧ running = true) → handle_move running s dir = s)
    ∧ (∀ (running : Bool) (s : Snake), handle_move running s (opposite s.direction) = s)
    ∧ (∀ (running : Bool) (s : Snake) (dir : Direction) (head second : Int × Int)
        (rest : List (Int × Int)), s.body = head :: second :: rest →
        nextHeadFor dir head = second → handle_move running s dir = s) := by
  refine ⟨?_, ?_, ?_⟩
  · intro running s dir h
    have h2 : ¬(s.alive = true ∧ running = true ∧ s.body.length > 0) := by tauto
    unfold handle_move
    rw [if_neg h2]
  · intro running s
    unfold handle_move
    split
    · dsimp only
      rw [if_neg]
      simp
    · rfl
  · intro running s dir head second rest hb hn
    unfold handle_move
    split
    · simp [hb, hn]
    · rfl

/-- Claim C8 witness: a dead snake ignores a move command; a straight snake
heading right ignores the reverse command; an L-shaped snake heading right
whose second segment lies below the head ignores the down command. -/
theorem c8_move_validation_witness :
    handle_move true sDead .up = sDead
    ∧ handle_move true sTwo (opposite sTwo.direction) = sTwo
    ∧ handle_move true sTwoL .down = sTwoL :=
  ⟨c8_move_validation.1 true sDead .up (by decide),
   c8_move_validation.2.1 true sTwo,
   c8_move_validation.2.2 true sTwoL .down (100, 100) (100, 120) [] rfl (by decide)⟩

/-- Claim C9 (confirmed): when the round ends through the driver (at most one
living snake while two exist), every round score is folded into the
cumulative score but round scores are not reset; the following restart folds
them again, so each cumulative score counts the final round twice.  In gsEnd
the dead snake (score 11, cumulative 3) ends at cumulative 25 = 3 + 2 x 11
and the surviving snake (score 50, cumulative 7) at 107 = 7 + 2 x 50.  The
second conjunct is the general restart half: restart always adds the current
round scores on top of whatever the cumulative scores already contain. -/
theorem c9_round_end_double_count :
    ((game_loop_tick 100 1 0 (gsEnd, constStream)).1.game_running = false
      ∧ (game_loop_tick 100 1 0 (gsEnd, constStream)).1.snakes.map Snake.score = [11, 50]
      ∧ (game_loop_tick 100 1 0 (gsEnd, constStream)).1.snakes.map Snake.total_score = [14, 57]
      ∧ (restart_game 0 (fun _ => (0, 0)) ((game_loop_tick 100 1 0 (gsEnd, constStream)).1,
            constStream)).1.snakes.map Snake.total_score = [25, 107]
      ∧ (restart_game 0 (fun _ => (0, 0)) ((game_loop_tick 100 1 0 (gsEnd, constStream)).1,
            constStream)).1.snakes.map Snake.score = [0, 0])
    ∧ ∀ (gs : GameState) (fuel : Nat) (posSt : Nat → Nat × Nat) (st : Nat → Draw),
        (restart_game fuel posSt (gs, st)).1.snakes.map Snake.total_score
          = gs.snakes.map fun s => s.total_score + s.score := by
  refine ⟨by decide, ?_⟩
  intro gs fuel posSt st
  unfold restart_game
  dsimp only
  have H := ufu_preserves fuel
    { gs with
      game_started := false
      game_running := false
      votes := gs.votes.map fun v => (v.1, false)
      snakes := resetSnakes posSt gs.snakes 0
      food := [] } st
  rw [H.2.1]
  exact (resetSnakes_facts posSt gs.snakes 0).2.2.1

/-- Casting helper: the cell coordinate 20 x m computed in naturals equals
GRID_SIZE times the cast index. -/
theorem cast_cell (m : Nat) : ((20 * m : Nat) : Int) = GRID_SIZE * (m : Int) := by
  simp [GRID_SIZE]

/-- foodOccupies distributes over list append. -/
theorem foodOccupies_append (a b : List Food) (x y : Int) :
    foodOccupies (a ++ b) x y = (foodOccupies a x y || foodOccupies b x y) := by
  simp [foodOccupies, List.any_append]

/-- bigFood has 1749 consumables. -/
theorem bigFood_length : bigFood.length = 1749 := by decide

/-- bigFood occupies every grid cell except (0, 0). -/
theorem bigFood_occupies (i j : Nat) (hi : i < 50) (hj : j < 35) (hij : ¬(i = 0 ∧ j = 0)) :
    foodOccupies bigFood (GRID_SIZE * (i : Int)) (GRID_SIZE * (j : Int)) = true := by
  have hn : i + 50 * j < 1750 := by omega
  have hnz : i + 50 * j ≠ 0 := by omega
  have h1 : (i + 50 * j) % 50 = i := by omega
  have h2 : (i + 50 * j) / 50 = j := by omega
  simp only [foodOccupies, List.any_eq_true]
  refine ⟨mkCellFood (i + 50 * j), ?_, ?_⟩
  · simp only [bigFood, List.mem_filterMap, List.mem_range]
    exact ⟨i + 50 * j, hn, by rw [if_neg hnz]⟩
  · simp only [mkCellFood, h1, h2, Bool.and_eq_true, beq_iff_eq]
    exact ⟨cast_cell i, cast_cell j⟩

/-- fullFood occupies every grid cell. -/
theorem fullFood_occupies (i j : Nat) (hi : i < 50) (hj : j < 35) :
    foodOccupies fullFood (GRID_SIZE * (i : Int)) (GRID_SIZE * (j : Int)) = true := by
  have hn : i + 50 * j < 1750 := by omega
  have h1 : (i + 50 * j) % 50 = i := by omega
  have h2 : (i + 50 * j) / 50 = j := by omega
  simp only [foodOccupies, List.any_eq_true]
  refine ⟨mkCellFood (i + 50 * j), ?_, ?_⟩
  · simp only [fullFood, List.mem_map, List.mem_range]
    exact ⟨i + 50 * j, hn, rfl⟩
  · simp only [mkCellFood, h1, h2, Bool.and_eq_true, beq_iff_eq]
    exact ⟨cast_cell i, cast_cell j⟩

/-- Cell (0, 0) is free of consumables in bigFood. -/
theorem bigFood_cell00_free : foodOccupies bigFood 0 0 = false := by decide

/-- If a placement draw hits a cell free of bigFood then the cell is (0, 0). -/
theorem bigFood_draw_free (d : Draw)
    (h : foodOccupies bigFood (drawX d) (drawY d) = false) :
    drawX d = 0 ∧ drawY d = 0 := by
  have hi : d.xi % 50 < 50 := Nat.mod_lt _ (by norm_num)
  have hj : d.yi % 35 < 35 := Nat.mod_lt _ (by norm_num)
  by_cases hij : d.xi % 50 = 0 ∧ d.yi % 35 = 0
  · obtain ⟨h1, h2⟩ := hij
    unfold drawX drawY
    rw [h1, h2]
    norm_num
  · have hocc := bigFood_occupies (d.xi % 50) (d.yi % 35) hi hj hij
    unfold drawX drawY at h
    rw [hocc] at h
    cases h

/-- bigFood plus one consumable at (0, 0) occupies every grid cell. -/
theorem bigFood_plus00_covers (g : Food) (hx : g.x = 0) (hy : g.y = 0)
    (i j : Nat) (hi : i < 50) (hj : j < 35) :
    foodOccupies (bigFood ++ [g]) (GRID_SIZE * (i : Int)) (GRID_SIZE * (j : Int)) = true := by
  rw [foodOccupies_append]
  by_cases hij : i = 0 ∧ j = 0
  · obtain ⟨h1, h2⟩ := hij
    subst h1; subst h2
    have : foodOccupies [g] (GRID_SIZE * ((0 : Nat) : Int)) (GRID_SIZE * ((0 : Nat) : Int)) = true := by
      simp [foodOccupies, hx, hy]
    rw [this, Bool.or_true]
  · rw [bigFood_occupies i j hi hj hij, Bool.true_or]

/-- Core bound for claim C10: starting from a state with 1751 participants
whose consumable list is bigFood (or any list of at most 1750 consumables
already covering the whole grid), the replenishment loop can never push the
consumable count past 1750, no matter how many iterations it runs or what it
draws: after the single free cell (0, 0) is filled, every later draw hits an
occupied cell and is discarded. -/
theorem ufu_s10_bounded : ∀ (fuel : Nat) (gs : GameState) (st : Nat → Draw),
    gs.snakes = [] →
    (gs.food = bigFood
      ∨ (gs.food.length ≤ 1750 ∧ ∀ i : Nat, i < 50 → ∀ j : Nat, j < 35 →
          foodOccupies gs.food (GRID_SIZE * (i : Int)) (GRID_SIZE * (j : Int)) = true)) →
    ( update_food_unsafe fuel (gs, st)).1.food.length ≤ 1750 := by
  intro fuel
  induction fuel with
  | zero =>
    intro gs st hsn hinv
    rcases hinv with h | h
    · show gs.food.length ≤ 1750
      rw [h, bigFood_length]
      norm_num
    · exact h.1
  | succ n ih =>
    intro gs st hsn hinv
    simp only [ update_food_unsafe]
    split
    · rcases hinv with h | h
      · by_cases hocc : foodOccupies gs.food (drawX (st 0)) (drawY (st 0)) = true
        · have hstep : update_food_step gs (st 0) = gs := by
            unfold update_food_step
            dsimp only
            rw [hocc]
            simp
          rw [hstep]
          exact ih gs _ hsn (Or.inl h)
        · have hfree : foodOccupies bigFood (drawX (st 0)) (drawY (st 0)) = false := by
            rw [← h]
            exact Bool.not_eq_true _ ▸ Bool.eq_false_iff.mpr hocc
          obtain ⟨hx0, hy0⟩ := bigFood_draw_free (st 0) hfree
          have hstep : (update_food_step gs (st 0)).food
              = gs.food ++ [{ x := drawX (st 0), y := drawY (st 0),
                              type := baselineFoodType (st 0).r }] := by
            unfold update_food_step
            dsimp only
            rw [hsn]
            simp [snakeOccupies, Bool.eq_false_iff.mpr hocc]
          refine ih _ _ ((ufs_preserves gs (st 0)).2.1.trans hsn) (Or.inr ⟨?_, ?_⟩)
          · rw [hstep, List.length_append, h, bigFood_length]
            norm_num
          · intro i hi j hj
            rw [hstep, h]
            exact bigFood_plus00_covers _ hx0 hy0 i j hi hj
      · have hocc : foodOccupies gs.food (drawX (st 0)) (drawY (st 0)) = true := by
          have hi : (st 0).xi % 50 < 50 := Nat.mod_lt _ (by norm_num)
          have hj : (st 0).yi % 35 < 35 := Nat.mod_lt _ (by norm_num)
          have := h.2 ((st 0).xi % 50) hi ((st 0).yi % 35) hj
          unfold drawX drawY
          exact this
        have hstep : update_food_step gs (st 0) = gs := by
          unfold update_food_step
          dsimp only
          rw [hocc]
          simp
        rw [hstep]
        exact ih gs _ hsn (Or.inr h)
    · rcases hinv with h | h
      · show gs.food.length ≤ 1750
        rw [h, bigFood_length]
        norm_num
      · exact h.1

/-- Claim C10 counterexample: update_food_unsafe does not terminate for every
state having a free cell.  In s10 the cell (0, 0) is free of snake bodies and
consumables and the count (1749) is below the target (1751), yet no number of
iterations with any draw stream ever reaches the target: at most one
consumable can still be placed, so the while guard stays true forever. -/
theorem c10_free_cell_nontermination :
    (snakeOccupies s10.snakes 0 0 = false ∧ foodOccupies s10.food 0 0 = false)
    ∧ s10.food.length < target_food_count s10
    ∧ ¬ UFUTerminates s10 := by
  refine ⟨⟨rfl, bigFood_cell00_free⟩, ?_, ?_⟩
  · show bigFood.length < target_food_count s10
    rw [bigFood_length]
    show 1749 < (List.range 1751).length * FOOD_COUNT_PER_PLAYER
    rw [List.length_range]
    norm_num [FOOD_COUNT_PER_PLAYER]
  · rintro ⟨fuel, st, hterm⟩
    have hb := ufu_s10_bounded fuel s10 st rfl (Or.inl rfl)
    have ht : target_food_count s10 = 1751 := by
      show (List.range 1751).length * FOOD_COUNT_PER_PLAYER = 1751
      rw [List.length_range]
      simp [FOOD_COUNT_PER_PLAYER]
    rw [ht] at hterm
    omega

/-- Claim C10 (amended): the replenishment loop retries placement with no
attempt bound; whenever every grid cell is covered by a snake body or an
existing consumable, each iteration discards its draw and changes nothing, so
the state is left exactly as it was no matter how much fuel the loop burns --
if the count is below target the while guard then stays true forever and the
call never terminates.  When free cells exist, termination is not guaranteed
for every such state (see the counterexample: one free cell but a deficit of
two). -/
theorem c10_no_free_cell_stalls : ∀ (gs : GameState) (fuel : Nat) (st : Nat → Draw),
    (∀ i : Nat, i < 50 → ∀ j : Nat, j < 35 →
      (snakeOccupies gs.snakes (GRID_SIZE * (i : Int)) (GRID_SIZE * (j : Int))
        || foodOccupies gs.food (GRID_SIZE * (i : Int)) (GRID_SIZE * (j : Int))) = true) →
    ( update_food_unsafe fuel (gs, st)).1 = gs := by
  intro gs fuel st h
  induction fuel generalizing st with
  | zero => rfl
  | succ n ih =>
    simp only [ update_food_unsafe]
    split
    · have hi : (st 0).xi % 50 < 50 := Nat.mod_lt _ (by norm_num)
      have hj : (st 0).yi % 35 < 35 := Nat.mod_lt _ (by norm_num)
      have hcov := h ((st 0).xi % 50) hi ((st 0).yi % 35) hj
      have hstep : update_food_step gs (st 0) = gs := by
        unfold update_food_step
        dsimp only
        have hcov2 : snakeOccupies gs.snakes (drawX (st 0)) (drawY (st 0)) = true
            ∨ foodOccupies gs.food (drawX (st 0)) (drawY (st 0)) = true := by
          have hc : (snakeOccupies gs.snakes (drawX (st 0)) (drawY (st 0))
              || foodOccupies gs.food (drawX (st 0)) (drawY (st 0))) = true := by
            unfold drawX drawY
            exact hcov
          simpa using hc
        have hcd : (!snakeOccupies gs.snakes (drawX (st 0)) (drawY (st 0))
            && !foodOccupies gs.food (drawX (st 0)) (drawY (st 0))) = false := by
          rcases hcov2 with h1 | h1 <;> simp [h1]
        rw [hcd]
        simp
      rw [hstep]
      exact ih fun n => st (n + 1)
    · rfl

/-- Claim C10 witness: on the fully covered board s10full (1750 consumables,
1751 participants, so the count is still below target), the loop with fuel 3
and a concrete draw stream returns the state unchanged. -/
theorem c10_no_free_cell_stalls_witness :
    ( update_food_unsafe 3 (s10full, constStream)).1 = s10full
    ∧ s10full.food.length < target_food_count s10full := by
  constructor
  · refine c10_no_free_cell_stalls s10full 3 constStream ?_
    intro i hi j hj
    have := fullFood_occupies i j hi hj
    show (snakeOccupies [] _ _ || foodOccupies fullFood _ _) = true
    rw [this, Bool.or_true]
  · have hf : fullFood.length = 1750 := by
      unfold fullFood
      rw [List.length_map, List.length_range]
    show fullFood.length < target_food_count s10full
    rw [hf]
    show 1750 < (List.range 1751).length * FOOD_COUNT_PER_PLAYER
    rw [List.length_range]
    simp [FOOD_COUNT_PER_PLAYER]
